import Mathlib

/-!
Shallow embedding of the wry RPC bridge (WebKitGTK backend).

Source files embedded:
* `src/webview/linux.rs` — the `connect_script_message_received` dispatcher
  closure of `InnerWebView::new` (decode, id extraction, RPC routing,
  registered-callback invocation, reply-script construction).
* `src/application/gtkrs.rs` — the RPC-handler wrapper installed by
  `_create_webview`, which intercepts the reserved window-drag method.
* `examples/rpc.rs` — the example RPC handler closure.

Types that the dispatcher uses but whose definitions are not part of the
given sources (`FuncCall`, `RpcRequest`, `RpcResponse`, `RPC_CALLBACK_NAME`)
are modelled from the spec, as noted on each definition.  serde_json's
`Value` is modelled by the inductive `Json`, its `Number` by `JNum`.
-/

namespace Wry

/-- serde_json's `Number`: a u64 (`posInt`, 0 ≤ n < 2^64), an i64 that is
negative (`negInt`, -2^63 ≤ n < 0), or a finite double that is not an
integer (`float`, kept abstract as its display string). -/
inductive JNum where
  | posInt (n : Nat)
  | negInt (n : Int)
  | float (repr : String)
deriving Repr

/-- serde_json `Number::is_i64`: true for `NegInt` (always an i64) and for
`PosInt` values not exceeding `i64::MAX`; false for floats. -/
def JNum.isI64 : JNum → Bool
  | .posInt n => n ≤ 9223372036854775807
  | .negInt _ => true
  | .float _ => false

/-- serde_json `Number::as_i64`. -/
def JNum.asI64 : JNum → Option Int
  | .posInt n => if n ≤ 9223372036854775807 then some (n : Int) else none
  | .negInt n => some n
  | .float _ => none

/-- serde_json `Value`. -/
inductive Json where
  | null
  | bool (b : Bool)
  | num (n : JNum)
  | str (s : String)
  | arr (elems : List Json)
  | obj (fields : List (String × Json))
deriving Repr

/-- Whether a `Value` is `Value::Array(_)`. -/
def Json.isArr : Json → Bool
  | .arr _ => true
  | _ => false

/-- Whether a `Value` is `Value::Number(_)`. -/
def Json.isNum : Json → Bool
  | .num _ => true
  | _ => false

/-- serde_json `Value::as_f64`: every `Number` converts to a double
(the numeric payload is carried through unchanged here). -/
def Json.asF64 : Json → Option JNum
  | .num n => some n
  | _ => none

/-- serde_json `Index<usize> for Value`: `v[i]` is the i-th array element,
and `Null` when `v` is not an array or the index is out of bounds. -/
def Json.index (v : Json) (i : Nat) : Json :=
  match v with
  | .arr elems => elems.getD i .null
  | _ => .null

/-- Rust's wrapping cast `as i32` applied to a mathematical integer:
reduce modulo 2^32 into the interval [-2^31, 2^31). -/
def wrap32 (n : Int) : Int :=
  (n + 2147483648) % 4294967296 - 2147483648

/-- Id extraction of `InnerWebView::new` (linux.rs lines 55-59):
`ev.payload.id` is narrowed to an i32, with 0 when the field is absent,
not a number, or a number that is not representable as an i64;
an i64 value is cast with Rust's wrapping `as i32`. -/
def extractId (ident : Option Json) : Int :=
  match ident with
  | some (.num n) => if n.isI64 then wrap32 (n.asI64.getD 0) else 0
  | some _ => 0
  | none => 0

/-- Escaping of one character in serde_json's compact string serialization:
`"` and `\` are backslash-escaped, the named control characters use their
short escapes, remaining control characters use `\uXXXX`. -/
def escChar (c : Char) : String :=
  if c = '"' then "\\\""
  else if c = '\\' then "\\\\"
  else if c = '\n' then "\\n"
  else if c = '\r' then "\\r"
  else if c = '\t' then "\\t"
  else if c.toNat = 8 then "\\b"
  else if c.toNat = 12 then "\\f"
  else if c.toNat < 32 then
    let hexDigit (d : Nat) : String :=
      String.singleton (if d < 10 then Char.ofNat (48 + d) else Char.ofNat (87 + d))
    "\\u00" ++ hexDigit (c.toNat / 16) ++ hexDigit (c.toNat % 16)
  else String.singleton c

/-- serde_json escaping of a whole string body. -/
def escapeString (s : String) : String :=
  String.join (s.toList.map escChar)

/-- Serialization of a `JNum` (the display form serde_json prints). -/
def JNum.serialize : JNum → String
  | .posInt n => toString n
  | .negInt n => toString n
  | .float r => r

mutual

/-- serde_json compact serialization of a `Value` — the behavior of both
`serde_json::to_string(&value)` (which cannot fail on a `Value`) and of
`Value`'s `Display`, used by the dispatcher for `id.to_string()`. -/
def Json.serialize : Json → String
  | .null => "null"
  | .bool true => "true"
  | .bool false => "false"
  | .num n => n.serialize
  | .str s => "\"" ++ escapeString s ++ "\""
  | .arr elems => "[" ++ Json.serializeList elems ++ "]"
  | .obj fields => "\x7b" ++ Json.serializeFields fields ++ "\x7d"

/-- Comma-separated serialization of array elements. -/
def Json.serializeList : List Json → String
  | [] => ""
  | [v] => Json.serialize v
  | v :: rest => Json.serialize v ++ "," ++ Json.serializeList rest

/-- Comma-separated serialization of object members. -/
def Json.serializeFields : List (String × Json) → String
  | [] => ""
  | [(k, v)] => "\"" ++ escapeString k ++ "\":" ++ Json.serialize v
  | (k, v) :: rest =>
      "\"" ++ escapeString k ++ "\":" ++ Json.serialize v ++ "," ++
        Json.serializeFields rest

end

/-- Modelled from the spec: the inbound call object (`RpcRequest`, whose
definition lives outside the given sources).  Spec §3: "Envelope (inbound
call): { id: optional identifier, method: string, params: optional JSON
value }". -/
structure RpcRequest where
  id : Option Json
  method : String
  params : Option Json

/-- Modelled from the spec: the decoded wire message (`FuncCall`, whose
definition lives outside the given sources).  Its shape follows the
dispatcher's uses: a routing name `callback` and an `RpcRequest` payload. -/
structure FuncCall where
  callback : String
  payload : RpcRequest

/-- Modelled from the spec: the outbound reply (`RpcResponse`, whose
definition lives outside the given sources).  Spec §3: "Response (outbound
reply): { id: identifier, result: optional JSON value, error: optional
JSON value }". -/
structure RpcResponse where
  id : Option Json
  result : Option Json
  error : Option Json

/-- Modelled from the spec: `RpcResponse::new_result(id, result)` used by
`examples/rpc.rs` — builds a reply with the given id and optional result
and no error. -/
def RpcResponse.new_result (id : Option Json) (result : Option Json) : RpcResponse :=
  ⟨id, result, none⟩

/-- Modelled from the spec: `RPC_CALLBACK_NAME`, "the reserved RPC channel
name" (§4.3); its concrete value is not in the given sources and nothing
below depends on it. -/
def RPC_CALLBACK_NAME : String := "__rpc__"

/-- The reserved window-drag control method name
(`gtkrs.rs` line 487). -/
def DRAG_METHOD : String := "__WRY_BEGIN_WINDOW_DRAG__"

/-- A registered callback from the `CALLBACKS` table: takes the narrowed
i32 call id and the normalized parameter list, returns unit or an error
description (what `format!("... {}", e)` prints). -/
def Callback : Type := Int → List Json → Except String Unit

/-- An RPC handler: `Box<dyn Fn(RpcRequest) -> Option<RpcResponse>>` as the
dispatcher in linux.rs sees it. -/
def RpcHandlerFn : Type := RpcRequest → Option RpcResponse

/-- Lookup in the process-wide `CALLBACKS` map, keyed by
`(window_id, callback_name)` (linux.rs line 105). -/
def lookupCallback (callbacks : List ((Int × String) × Callback))
    (key : Int × String) : Option Callback :=
  (callbacks.find? (fun entry => entry.1 = key)).map (fun entry => entry.2)

/-- Everything observable that one dispatcher activation produces:
scripts passed to `run_javascript` (in order), `eprintln!` log lines,
the requests handed to the RPC handler, the invocations of registered
callbacks as (name, id, params), and whether the closure panicked
(an `unwrap()` failure). -/
structure DispatchResult where
  injections : List String
  logs : List String
  rpcRequests : List RpcRequest
  callbackInvocations : List (String × Int × List Json)
  panicked : Bool

/-- Routing test of linux.rs line 61:
`rpc_handler.is_some() && &ev.callback == RPC_CALLBACK_NAME`. -/
def useRpc (rpcHandler : Option RpcHandlerFn) (ev : FuncCall) : Bool :=
  rpcHandler.isSome && ev.callback == RPC_CALLBACK_NAME

/-- Reply-script construction for an RPC response carrying an id
(linux.rs lines 69-96), parameterized by the JSON encoder used for the
payload (`serde_json::to_string`), whose failure branch falls back to a
`null` payload.  The id itself is printed with `Value`'s `Display`. -/
def rpcReplyScriptWith (enc : Json → Option String) (rid : Json)
    (resp : RpcResponse) : String :=
  match resp.error with
  | some error =>
    match enc error with
    | some retval =>
        "window.external.rpc._error(" ++ rid.serialize ++ ", " ++ retval ++ ")"
    | none =>
        "window.external.rpc._error(" ++ rid.serialize ++ ", null)"
  | none =>
    match resp.result with
    | some result =>
      match enc result with
      | some retval =>
          "window.external.rpc._result(" ++ rid.serialize ++ ", " ++ retval ++ ")"
      | none =>
          "window.external.rpc._result(" ++ rid.serialize ++ ", null)"
    | none =>
        "window.external.rpc._result(" ++ rid.serialize ++ ", null)"

/-- Params normalization of linux.rs lines 107-112: a missing `params`
becomes `Value::Null`; an array is used as-is; any other value (including
that `Null`) is wrapped in a one-element vector. -/
def normalizedParams (params : Option Json) : List Json :=
  let rawParams := params.getD Json.null
  match rawParams with
  | .arr elems => elems
  | v => [v]

/-- Registered-callback reply script, success case (linux.rs lines 116-121). -/
def callbackOkScript (id : Int) : String :=
  "window._rpc[" ++ toString id ++ "].resolve(\"RPC call success\"); window._rpc[" ++
    toString id ++ "] = undefined"

/-- Registered-callback reply script, failure case (linux.rs lines 122-127). -/
def callbackErrScript (id : Int) (e : String) : String :=
  "window._rpc[" ++ toString id ++ "].reject(\"RPC call fail with error " ++ e ++
    "\"); window._rpc[" ++ toString id ++ "] = undefined"

/-- The `Ok(ev)` arm of the dispatcher closure in `InnerWebView::new`
(linux.rs lines 51-132), parameterized by the payload JSON encoder.
Extract the i32 id; route to the RPC handler when `useRpc` holds
(injecting a reply only for a `Some` response that carries an id);
otherwise look the callback up in `CALLBACKS` — the source `unwrap()`s
this lookup, so a missing entry is a panic — normalize params, invoke,
and inject the resolve/reject script. -/
def handleEnvelopeWith (enc : Json → Option String) (windowId : Int)
    (callbacks : List ((Int × String) × Callback))
    (rpcHandler : Option RpcHandlerFn) (ev : FuncCall) : DispatchResult :=
  let id := extractId ev.payload.id
  if useRpc rpcHandler ev then
    let handler := rpcHandler.getD (fun _ => none)
    match handler ev.payload with
    | some resp =>
      match resp.id with
      | some rid =>
          { injections := [rpcReplyScriptWith enc rid resp], logs := [],
            rpcRequests := [ev.payload], callbackInvocations := [],
            panicked := false }
      | none =>
          { injections := [], logs := [], rpcRequests := [ev.payload],
            callbackInvocations := [], panicked := false }
    | none =>
        { injections := [], logs := [], rpcRequests := [ev.payload],
          callbackInvocations := [], panicked := false }
  else
    match lookupCallback callbacks (windowId, ev.callback) with
    | none =>
        { injections := [], logs := [], rpcRequests := [],
          callbackInvocations := [], panicked := true }
    | some f =>
      let params := normalizedParams ev.payload.params
      let js :=
        match f id params with
        | .ok _ => callbackOkScript id
        | .error e => callbackErrScript id e
      { injections := [js], logs := [], rpcRequests := [],
        callbackInvocations := [(ev.callback, id, params)], panicked := false }

/-- The total payload encoder: `serde_json::to_string` on a `Value`
always succeeds. -/
def jsonEncodeOk (v : Json) : Option String := some v.serialize

/-- The dispatcher with the real encoder. -/
def handleEnvelope (windowId : Int)
    (callbacks : List ((Int × String) × Callback))
    (rpcHandler : Option RpcHandlerFn) (ev : FuncCall) : DispatchResult :=
  handleEnvelopeWith jsonEncodeOk windowId callbacks rpcHandler ev

/-- The whole message-received closure body over the decode outcome
(linux.rs lines 50 and 134-137): `serde_json::from_str::<FuncCall>` is
external library code, embedded as the `Except` value it returns; its
`Err(e)` arm logs `Bad Javascript function call: e (raw)` and does
nothing else. -/
def onMessage (windowId : Int)
    (callbacks : List ((Int × String) × Callback))
    (rpcHandler : Option RpcHandlerFn)
    (decoded : Except String FuncCall) (raw : String) : DispatchResult :=
  match decoded with
  | .ok ev => handleEnvelope windowId callbacks rpcHandler ev
  | .error e =>
      { injections := [],
        logs := ["Bad Javascript function call: " ++ e ++ " (" ++ raw ++ ")"],
        rpcRequests := [], callbackInvocations := [], panicked := false }

/-- Observable outcome of one activation of the RPC-handler wrapper that
`_create_webview` installs (gtkrs.rs lines 479-500): the
`begin_move_drag` forwards it performed (as the two numeric coordinates),
the requests that reached the user-supplied RPC handler, and the value
the wrapper returned to the dispatcher. -/
structure WrapperResult where
  dragBegun : List (JNum × JNum)
  userInvoked : List RpcRequest
  response : Option RpcResponse

/-- Shared tail of the wrapper (gtkrs.rs lines 495-499): forward the
request to the user handler when one is installed, else answer `None`. -/
def wrapTail (drag : List (JNum × JNum)) (user : Option RpcHandlerFn)
    (req : RpcRequest) : WrapperResult :=
  match user with
  | some h => { dragBegun := drag, userInvoked := [req], response := h req }
  | none => { dragBegun := drag, userInvoked := [], response := none }

/-- The RPC-handler wrapper of `_create_webview` (gtkrs.rs lines 479-500).
When the method is the reserved drag name and `params` is present, the
first two indexed values are read with `as_f64()?` — a `None` there
early-returns `None` from the closure — and `begin_drag` is issued; in
every other path, including after a successful drag, control falls
through to the user handler. -/
def wrapRpcHandler (user : Option RpcHandlerFn) (req : RpcRequest) :
    WrapperResult :=
  if req.method == DRAG_METHOD then
    match req.params with
    | some params =>
      match (params.index 0).asF64 with
      | none => { dragBegun := [], userInvoked := [], response := none }
      | some x =>
        match (params.index 1).asF64 with
        | none => { dragBegun := [], userInvoked := [], response := none }
        | some y => wrapTail [(x, y)] user req
    | none => wrapTail [] user req
  else wrapTail [] user req

/-- The parameter struct of `examples/rpc.rs`. -/
structure MessageParameters where
  message : String

/-- serde deserialization `Vec<bool>`: a JSON array whose every element is
a boolean (no coercions); anything else fails. -/
def fromValueVecBool : Json → Option (List Bool)
  | .arr elems =>
      elems.mapM (fun v => match v with
        | .bool b => some b
        | _ => none)
  | _ => none

/-- serde deserialization of one `MessageParameters`: an object whose
`message` member is a string, appearing exactly once (serde rejects a
duplicate member and a missing one; unknown members are ignored). -/
def fromValueMessageParameters : Json → Option MessageParameters
  | .obj fields =>
    match fields.filter (fun p => p.1 = "message") with
    | [(_, .str s)] => some ⟨s⟩
    | _ => none
  | _ => none

/-- serde deserialization `Vec<MessageParameters>`. -/
def fromValueVecMessageParameters : Json → Option (List MessageParameters)
  | .arr elems => elems.mapM fromValueMessageParameters
  | _ => none

/-- The example RPC handler closure of `examples/rpc.rs` (lines 44-76):
`fullscreen` deserializes its params as `Vec<bool>` and, when that
succeeds, unconditionally acknowledges with `new_result(id, None)`;
`send-parameters` deserializes as `Vec<MessageParameters>` and replies
with `"Hello, {message}!"` built from the first element (or no result
when the vector is empty); every other method, and every deserialization
failure, leaves the response `None`. -/
def exampleRpcHandler (req : RpcRequest) : Option RpcResponse :=
  if req.method == "fullscreen" then
    match req.params with
    | some params =>
      match fromValueVecBool params with
      | some _args => some (RpcResponse.new_result req.id none)
      | none => none
    | none => none
  else if req.method == "send-parameters" then
    match req.params with
    | some params =>
      match fromValueVecMessageParameters params with
      | some args =>
        let result :=
          match args with
          | msg :: _ => some (Json.str ("Hello, " ++ msg.message ++ "!"))
          | [] => none
        some (RpcResponse.new_result req.id result)
      | none => none
    | none => none
  else none

/-- Encoding of an integer m (any i64 value) as the serde_json `Number`
that `from_str` produces for it: non-negative values parse as `PosInt`,
negative ones as `NegInt`. -/
def JNum.ofInt (m : Int) : JNum :=
  if 0 ≤ m then .posInt m.toNat else .negInt m

/-- A concrete envelope whose callback name is registered nowhere:
`{"callback": "missing", "payload": {"method": "missing"}}`. -/
def missingEv : FuncCall := ⟨"missing", ⟨none, "missing", none⟩⟩

/-- A concrete drag control request:
`{method: "__WRY_BEGIN_WINDOW_DRAG__", params: [10, 20]}`. -/
def dragReq : RpcRequest :=
  ⟨none, DRAG_METHOD, some (.arr [.num (.posInt 10), .num (.posInt 20)])⟩

/-- The drag request as a decoded wire message on the RPC channel. -/
def dragEv : FuncCall := ⟨RPC_CALLBACK_NAME, dragReq⟩

/-- A concrete user RPC handler that answers every request with a reply
carrying id 5 and no result or error. -/
def dragUserHandler : RpcHandlerFn := fun _ => some ⟨some (.num (.posInt 5)), none, none⟩

/-- A registered callback that always succeeds. -/
def okCallback : Callback := fun _ _ => .ok ()

/-- A registered callback that always fails with description `boom`. -/
def errCallback : Callback := fun _ _ => .error "boom"

/-- A concrete envelope for the registered name `foo` with absent params. -/
def fooEvNoParams : FuncCall := ⟨"foo", ⟨none, "foo", none⟩⟩

/-- A concrete envelope for the registered name `cb`, id 7, params `[]`. -/
def cbEv : FuncCall := ⟨"cb", ⟨some (.num (.posInt 7)), "cb", some (.arr [])⟩⟩

/-- The `send-parameters` test envelope of the spec:
`{method: "send-parameters", params: [{message: "WRY"}]}`. -/
def sendParametersReq : RpcRequest :=
  ⟨none, "send-parameters", some (.arr [.obj [("message", .str "WRY")]])⟩

/-- The `fullscreen` test envelope of the spec:
`{method: "fullscreen", params: [true]}`. -/
def fullscreenReq : RpcRequest := ⟨none, "fullscreen", some (.arr [.bool true])⟩

/-- Claim C1 (counterexample): on a concrete envelope whose callback name
is not registered (empty registry, no RPC handler), the dispatcher
panics — the `unwrap()` of the `CALLBACKS` lookup fails — and logs
nothing, contradicting "the message is dropped and logged ... and the
bridge does not crash". -/
theorem c1_notfound_counterexample :
    (handleEnvelope 1 [] none missingEv).panicked = true ∧
    (handleEnvelope 1 [] none missingEv).logs = [] ∧
    (handleEnvelope 1 [] none missingEv).injections = [] := by
  refine ⟨rfl, rfl, rfl⟩

/-- Claim C1 (amended): for every envelope on the registered-callback path
whose method name is not registered for that window, the dispatcher
panics on the unwrapped lookup; no reply is injected and nothing is
logged, but the bridge crashes instead of dropping the message. -/
theorem c1_notfound_panics (enc : Json → Option String) (windowId : Int)
    (callbacks : List ((Int × String) × Callback))
    (rpcHandler : Option RpcHandlerFn) (ev : FuncCall)
    (hroute : useRpc rpcHandler ev = false)
    (hmiss : lookupCallback callbacks (windowId, ev.callback) = none) :
    handleEnvelopeWith enc windowId callbacks rpcHandler ev =
      { injections := [], logs := [], rpcRequests := [],
        callbackInvocations := [], panicked := true } := by
  simp only [handleEnvelopeWith, hroute, hmiss, if_false, Bool.false_eq_true]

/-- Claim C1 (witness): the amended statement at the concrete unregistered
envelope. -/
theorem c1_notfound_panics_witness :
    handleEnvelopeWith jsonEncodeOk 1 [] none missingEv =
      { injections := [], logs := [], rpcRequests := [],
        callbackInvocations := [], panicked := true } :=
  c1_notfound_panics jsonEncodeOk 1 [] none missingEv rfl rfl

/-- Claim C4: for every raw text whose decode fails (`from_str` returns
`Err e`), the closure only prints the `Bad Javascript function call`
line: no script is injected, no handler runs, and nothing panics. -/
theorem c4_decode_failure_dropped (windowId : Int)
    (callbacks : List ((Int × String) × Callback))
    (rpcHandler : Option RpcHandlerFn) (e raw : String) :
    onMessage windowId callbacks rpcHandler (.error e) raw =
      { injections := [],
        logs := ["Bad Javascript function call: " ++ e ++ " (" ++ raw ++ ")"],
        rpcRequests := [], callbackInvocations := [], panicked := false } := rfl

/-- Claim C3 (counterexample): an envelope with absent `params` routed to
a registered callback hands the callback the one-element list `[null]`,
not the empty list the claim requires. -/
theorem c3_absent_params_counterexample :
    (handleEnvelope 1 [((1, "foo"), okCallback)] none fooEvNoParams).callbackInvocations =
      [("foo", 0, [Json.null])] ∧ ([Json.null] : List Json) ≠ [] := by
  exact ⟨rfl, by simp⟩

/-- Claim C3 (amended): the dispatcher passes registered callbacks the
normalized parameter list, where a JSON array is passed as-is and a
single non-array value is wrapped in a one-element sequence; an absent
`params` is replaced by JSON `null` and then wrapped, so the handler
receives the one-element sequence `[null]` (not an empty sequence). -/
theorem c3_params_normalization (windowId : Int)
    (callbacks : List ((Int × String) × Callback))
    (rpcHandler : Option RpcHandlerFn) (ev : FuncCall) (f : Callback)
    (hroute : useRpc rpcHandler ev = false)
    (hf : lookupCallback callbacks (windowId, ev.callback) = some f) :
    (handleEnvelope windowId callbacks rpcHandler ev).callbackInvocations =
      [(ev.callback, extractId ev.payload.id, normalizedParams ev.payload.params)] ∧
    (∀ elems : List Json, normalizedParams (some (.arr elems)) = elems) ∧
    (∀ v : Json, v.isArr = false → normalizedParams (some v) = [v]) ∧
    normalizedParams none = [Json.null] := by
  refine ⟨?_, fun elems => rfl, ?_, rfl⟩
  · simp only [handleEnvelope, handleEnvelopeWith, hroute, hf, if_false,
      Bool.false_eq_true]
  · intro v hv
    cases v <;> simp_all [normalizedParams, Json.isArr]

/-- Claim C3 (witness): the amended statement at the concrete envelope
with absent params and the registered callback `foo`. -/
theorem c3_params_normalization_witness :
    (handleEnvelope 1 [((1, "foo"), okCallback)] none fooEvNoParams).callbackInvocations =
      [("foo", 0, [Json.null])] ∧
    normalizedParams (some (.arr [.bool true])) = [.bool true] ∧
    normalizedParams (some (.obj [("k", .null)])) = [.obj [("k", .null)]] ∧
    normalizedParams none = [Json.null] := by
  have h := c3_params_normalization 1 [((1, "foo"), okCallback)] none
    fooEvNoParams okCallback rfl rfl
  exact ⟨h.1, h.2.1 [.bool true], h.2.2.1 (.obj [("k", .null)]) rfl, h.2.2.2⟩

/-- Claim C2 (counterexample): a drag control message with numeric
coordinates is handed on to the installed user RPC handler
(`userInvoked = [dragReq]`), and because that handler answers with an
id-carrying response, the dispatcher injects a reply — contradicting
"never reaches ... the user-supplied RPC handler" and "this path never
produces a reply". -/
theorem c2_drag_reaches_user_handler_counterexample :
    (wrapRpcHandler (some dragUserHandler) dragReq).userInvoked = [dragReq] ∧
    (handleEnvelope 1 []
        (some (fun req => (wrapRpcHandler (some dragUserHandler) req).response))
        dragEv).injections = ["window.external.rpc._result(5, null)"] := by
  exact ⟨rfl, rfl⟩

/-- Claim C2 (amended): when the method is the reserved drag name and
`params` starts with two numeric values x, y, the wrapper issues
`begin_drag(x, y)` — but then falls through: the very same request is
still forwarded to the user RPC handler when one is installed, and the
wrapper returns whatever that handler returns (so a reply can be
produced).  Only when no handler is installed does the path end with no
response. -/
theorem c2_drag_falls_through (user : Option RpcHandlerFn)
    (req : RpcRequest) (x y : JNum) (rest : List Json)
    (hm : req.method = DRAG_METHOD)
    (hp : req.params = some (Json.arr (Json.num x :: Json.num y :: rest))) :
    (wrapRpcHandler user req).dragBegun = [(x, y)] ∧
    (wrapRpcHandler user req).userInvoked =
      (if user.isSome then [req] else []) ∧
    (wrapRpcHandler user req).response =
      (match user with | some h => h req | none => none) := by
  have hw : wrapRpcHandler user req = wrapTail [(x, y)] user req := by
    simp [wrapRpcHandler, hm, hp, Json.index, Json.asF64]
  cases user <;> simp [hw, wrapTail]

/-- Claim C2 (witness): the amended statement at the concrete drag
request with the concrete user handler. -/
theorem c2_drag_falls_through_witness :
    (wrapRpcHandler (some dragUserHandler) dragReq).dragBegun =
      [(.posInt 10, .posInt 20)] ∧
    (wrapRpcHandler (some dragUserHandler) dragReq).userInvoked =
      (if (some dragUserHandler).isSome then [dragReq] else []) ∧
    (wrapRpcHandler (some dragUserHandler) dragReq).response =
      (match some dragUserHandler with
        | some h => h dragReq
        | none => none) :=
  c2_drag_falls_through (some dragUserHandler) dragReq
    (.posInt 10) (.posInt 20) [] rfl rfl

/-- Claim C5: for every envelope routed to a registered callback with
extracted id n: a success outcome injects exactly the script that
resolves promise slot n with the fixed acknowledgement string and then
clears the slot (sets it undefined); a failure outcome with description
e injects exactly the script that rejects slot n with a message
embedding e and then clears the slot. -/
theorem c5_callback_reply_scripts (windowId : Int)
    (callbacks : List ((Int × String) × Callback))
    (rpcHandler : Option RpcHandlerFn) (ev : FuncCall) (f : Callback)
    (hroute : useRpc rpcHandler ev = false)
    (hf : lookupCallback callbacks (windowId, ev.callback) = some f) :
    (f (extractId ev.payload.id) (normalizedParams ev.payload.params) = .ok () →
      (handleEnvelope windowId callbacks rpcHandler ev).injections =
        ["window._rpc[" ++ toString (extractId ev.payload.id) ++
          "].resolve(\"RPC call success\"); window._rpc[" ++
          toString (extractId ev.payload.id) ++ "] = undefined"]) ∧
    (∀ e : String,
      f (extractId ev.payload.id) (normalizedParams ev.payload.params) = .error e →
      (handleEnvelope windowId callbacks rpcHandler ev).injections =
        ["window._rpc[" ++ toString (extractId ev.payload.id) ++
          "].reject(\"RPC call fail with error " ++ e ++
          "\"); window._rpc[" ++ toString (extractId ev.payload.id) ++
          "] = undefined"]) := by
  constructor
  · intro hok
    simp [handleEnvelope, handleEnvelopeWith, hroute, hf, hok,
      callbackOkScript]
  · intro e herr
    simp [handleEnvelope, handleEnvelopeWith, hroute, hf, herr,
      callbackErrScript]

/-- Claim C5 (witness): the concrete envelope `cbEv` (id 7, params `[]`)
against an always-succeeding and an always-failing registered callback. -/
theorem c5_callback_reply_scripts_witness :
    (handleEnvelope 1 [((1, "cb"), okCallback)] none cbEv).injections =
      ["window._rpc[7].resolve(\"RPC call success\"); window._rpc[7] = undefined"] ∧
    (handleEnvelope 1 [((1, "cb"), errCallback)] none cbEv).injections =
      ["window._rpc[7].reject(\"RPC call fail with error boom\"); window._rpc[7] = undefined"] := by
  constructor
  · have h := (c5_callback_reply_scripts 1 [((1, "cb"), okCallback)] none cbEv
      okCallback rfl rfl).1 rfl
    simpa using h
  · have h := (c5_callback_reply_scripts 1 [((1, "cb"), errCallback)] none cbEv
      errCallback rfl rfl).2 "boom" rfl
    simpa using h

/-- Claim C6: for every RPC response carrying an id whose error or result
payload the JSON encoder fails on, the dispatcher still injects the
reply with a `null` payload in place of the unencodable value — the
reply is never dropped and the closure does not panic. -/
theorem c6_encode_failure_null_fallback (enc : Json → Option String)
    (windowId : Int) (callbacks : List ((Int × String) × Callback))
    (h : RpcHandlerFn) (ev : FuncCall) (resp : RpcResponse) (rid : Json)
    (hcb : ev.callback = RPC_CALLBACK_NAME)
    (hresp : h ev.payload = some resp)
    (hid : resp.id = some rid) :
    (∀ err : Json, resp.error = some err → enc err = none →
      handleEnvelopeWith enc windowId callbacks (some h) ev =
        { injections := ["window.external.rpc._error(" ++ rid.serialize ++ ", null)"],
          logs := [], rpcRequests := [ev.payload], callbackInvocations := [],
          panicked := false }) ∧
    (∀ r : Json, resp.error = none → resp.result = some r → enc r = none →
      handleEnvelopeWith enc windowId callbacks (some h) ev =
        { injections := ["window.external.rpc._result(" ++ rid.serialize ++ ", null)"],
          logs := [], rpcRequests := [ev.payload], callbackInvocations := [],
          panicked := false }) := by
  constructor
  · intro err herr henc
    simp [handleEnvelopeWith, useRpc, hcb, hresp, hid, rpcReplyScriptWith,
      herr, henc]
  · intro r herr hres henc
    simp [handleEnvelopeWith, useRpc, hcb, hresp, hid, rpcReplyScriptWith,
      herr, hres, henc]

/-- Claim C6 (witness): a handler answering with an error payload and one
answering with a result payload, under an encoder that always fails:
both replies are still injected, with `null` payloads. -/
theorem c6_encode_failure_null_fallback_witness :
    handleEnvelopeWith (fun _ => none) 1 []
        (some (fun _ => some ⟨some (.num (.posInt 1)), none, some (.str "e")⟩))
        ⟨RPC_CALLBACK_NAME, ⟨none, "m", none⟩⟩ =
      { injections := ["window.external.rpc._error(1, null)"], logs := [],
        rpcRequests := [⟨none, "m", none⟩], callbackInvocations := [],
        panicked := false } ∧
    handleEnvelopeWith (fun _ => none) 1 []
        (some (fun _ => some ⟨some (.num (.posInt 2)), some (.str "r"), none⟩))
        ⟨RPC_CALLBACK_NAME, ⟨none, "m", none⟩⟩ =
      { injections := ["window.external.rpc._result(2, null)"], logs := [],
        rpcRequests := [⟨none, "m", none⟩], callbackInvocations := [],
        panicked := false } := by
  constructor
  · have h := (c6_encode_failure_null_fallback (fun _ => none) 1 []
      (fun _ => some ⟨some (.num (.posInt 1)), none, some (.str "e")⟩)
      ⟨RPC_CALLBACK_NAME, ⟨none, "m", none⟩⟩
      ⟨some (.num (.posInt 1)), none, some (.str "e")⟩
      (.num (.posInt 1)) rfl rfl rfl).1 (.str "e") rfl rfl
    simpa using h
  · have h := (c6_encode_failure_null_fallback (fun _ => none) 1 []
      (fun _ => some ⟨some (.num (.posInt 2)), some (.str "r"), none⟩)
      ⟨RPC_CALLBACK_NAME, ⟨none, "m", none⟩⟩
      ⟨some (.num (.posInt 2)), some (.str "r"), none⟩
      (.num (.posInt 2)) rfl rfl rfl).2 (.str "r") rfl rfl rfl
    simpa using h

/-- Claim C7: an RPC response that carries an id but neither a result nor
an error still gets a reply, the implicit acknowledgement
`_result(id, null)`, so the caller's promise is settled. -/
theorem c7_ack_on_empty_response (windowId : Int)
    (callbacks : List ((Int × String) × Callback))
    (h : RpcHandlerFn) (ev : FuncCall) (resp : RpcResponse) (rid : Json)
    (hcb : ev.callback = RPC_CALLBACK_NAME)
    (hresp : h ev.payload = some resp)
    (hid : resp.id = some rid)
    (herr : resp.error = none) (hres : resp.result = none) :
    handleEnvelope windowId callbacks (some h) ev =
      { injections := ["window.external.rpc._result(" ++ rid.serialize ++ ", null)"],
        logs := [], rpcRequests := [ev.payload], callbackInvocations := [],
        panicked := false } := by
  simp [handleEnvelope, handleEnvelopeWith, useRpc, hcb, hresp, hid,
    rpcReplyScriptWith, herr, hres]

/-- Claim C7 (witness): a concrete handler returning
`{id: 9, result: absent, error: absent}` yields the null ACK reply. -/
theorem c7_ack_on_empty_response_witness :
    handleEnvelope 1 []
        (some (fun _ => some ⟨some (.num (.posInt 9)), none, none⟩))
        ⟨RPC_CALLBACK_NAME, ⟨none, "m", none⟩⟩ =
      { injections := ["window.external.rpc._result(9, null)"], logs := [],
        rpcRequests := [⟨none, "m", none⟩], callbackInvocations := [],
        panicked := false } := by
  have h := c7_ack_on_empty_response 1 []
    (fun _ => some ⟨some (.num (.posInt 9)), none, none⟩)
    ⟨RPC_CALLBACK_NAME, ⟨none, "m", none⟩⟩
    ⟨some (.num (.posInt 9)), none, none⟩ (.num (.posInt 9))
    rfl rfl rfl rfl rfl
  simpa using h

/-- Claim C8: the extracted i32 call id is 0 whenever the id field is
absent or not a JSON number; and the request reaches the RPC handler
exactly when a handler is installed and the envelope's routing name
equals the reserved RPC channel name. -/
theorem c8_id_fallback_and_rpc_routing :
    extractId none = 0 ∧
    (∀ v : Json, v.isNum = false → extractId (some v) = 0) ∧
    (∀ (windowId : Int) (callbacks : List ((Int × String) × Callback))
        (rpcHandler : Option RpcHandlerFn) (ev : FuncCall),
      (handleEnvelope windowId callbacks rpcHandler ev).rpcRequests =
        if rpcHandler.isSome ∧ ev.callback = RPC_CALLBACK_NAME
        then [ev.payload] else []) := by
  refine ⟨rfl, ?_, ?_⟩
  · intro v hv
    cases v <;> simp_all [extractId, Json.isNum]
  · intro windowId callbacks rpcHandler ev
    by_cases hr : rpcHandler.isSome ∧ ev.callback = RPC_CALLBACK_NAME
    · have hroute : useRpc rpcHandler ev = true := by
        simp [useRpc, hr.1, hr.2]
      simp only [handleEnvelope, handleEnvelopeWith, hroute, if_true]
      cases hresp : (rpcHandler.getD (fun _ => none)) ev.payload with
      | none => simp [hr]
      | some resp => cases hrid : resp.id <;> simp [hrid, hr]
    · have hroute : useRpc rpcHandler ev = false := by
        cases hs : rpcHandler.isSome <;>
          simp_all [useRpc]
      simp only [handleEnvelope, handleEnvelopeWith, hroute, if_false,
        Bool.false_eq_true]
      cases lookupCallback callbacks (windowId, ev.callback) <;> simp [hr]

/-- Claim C8 (witness): a string-valued id extracts to 0; with no RPC
handler installed the concrete request list handed to the RPC handler is
empty. -/
theorem c8_id_fallback_and_rpc_routing_witness :
    extractId (some (.str "x")) = 0 ∧
    (handleEnvelope 1 [((1, "foo"), okCallback)] none fooEvNoParams).rpcRequests = [] := by
  constructor
  · exact c8_id_fallback_and_rpc_routing.2.1 (.str "x") rfl
  · rw [c8_id_fallback_and_rpc_routing.2.2 1 [((1, "foo"), okCallback)] none
      fooEvNoParams]
    simp

/-- Claim C9: the example RPC handler answers
`{method: "send-parameters", params: [{message: "WRY"}]}` with a
response whose result is the JSON string `"Hello, WRY!"` and whose error
is absent, and `{method: "fullscreen", params: [true]}` with a response
that carries no result value and no error — the unconditional null
acknowledgement, which the dispatcher's reply encoder renders as
`_result(id, null)` (shown here for id 1). -/
theorem c9_example_handler_responses :
    exampleRpcHandler sendParametersReq =
      some ⟨none, some (.str "Hello, WRY!"), none⟩ ∧
    exampleRpcHandler fullscreenReq = some ⟨none, none, none⟩ ∧
    rpcReplyScriptWith jsonEncodeOk (Json.num (.posInt 1))
        ⟨some (.num (.posInt 1)), none, none⟩ =
      "window.external.rpc._result(1, null)" := by
  exact ⟨rfl, rfl, rfl⟩

/-- Claim C10: for every id that is a JSON number representable as an
i64, the extracted call id is the Rust wrapping cast `as i32` of its
value (shown concretely: the out-of-i32-range id 2^31 extracts to
-2^31, not the 0 sentinel); the 0 fallback applies to a number not
representable as an i64 (a u64 beyond `i64::MAX`, or a float) and to an
absent id. -/
theorem c10_id_wrapping_truncation :
    (∀ m : Int, -9223372036854775808 ≤ m → m ≤ 9223372036854775807 →
      extractId (some (.num (JNum.ofInt m))) = wrap32 m) ∧
    extractId (some (.num (.posInt 2147483648))) = -2147483648 ∧
    (-2147483648 : Int) ≠ 0 ∧
    extractId (some (.num (.posInt 9223372036854775808))) = 0 ∧
    extractId (some (.num (.float "1.5"))) = 0 ∧
    extractId none = 0 := by
  refine ⟨?_, by decide, by decide, by decide, rfl, rfl⟩
  intro m hlo hhi
  by_cases hm : 0 ≤ m
  · have ht : m.toNat ≤ 9223372036854775807 := by omega
    simp [JNum.ofInt, hm, extractId, JNum.isI64, JNum.asI64, ht,
      Int.toNat_of_nonneg hm]
  · simp [JNum.ofInt, hm, extractId, JNum.isI64, JNum.asI64]

/-- Claim C10 (witness): the wrapping-cast statement applied at the
concrete i64 value 2^31. -/
theorem c10_id_wrapping_truncation_witness :
    extractId (some (.num (JNum.ofInt 2147483648))) = wrap32 2147483648 :=
  c10_id_wrapping_truncation.1 2147483648 (by decide) (by decide)

end Wry
